import Mathlib

/-!
Verification of the travel-assistant backend core: intent classification
(`detect_intent`), budget estimation (`budget_calc`), and the coin economy
(`ensure_user`, `reward`, `redeem`).  Definitions are shallow embeddings of
`src/main.py` and `src/schemas.py`; the document store (out-of-scope
`database.py`) is modelled as in-memory lists with create = append,
find_one = first match, update_one = update first match.  Python ints are
modelled as `Int`; the budget arithmetic (Python floats whose values here are
all exact multiples of 1/10) is modelled exactly over `ℚ`, with Python's
banker's rounding `round(x, 2)` as `round2`.
-/

/-- Python substring match at the head: the first list is a leading segment of
the second. -/
def leadEq : List Char → List Char → Bool
  | [], _ => true
  | _ :: _, [] => false
  | a :: as, b :: bs => a == b && leadEq as bs

/-- `hasSub needle hay`: Python's `needle in hay` on the character lists. -/
def hasSub (needle : List Char) : List Char → Bool
  | [] => leadEq needle []
  | h :: t => leadEq needle (h :: t) || hasSub needle t

/-- Python `k in t` for strings. -/
def strContains (hay k : String) : Bool := hasSub k.data hay.data

/-- Python `text.lower()` (ASCII inputs only in this codebase). -/
def strLower (s : String) : String := String.mk (s.data.map Char.toLower)

/-- `detect_intent` from `src/main.py` lines 115-141: an ordered keyword scan
over the lowercased input; the first matching rule wins, default "general". -/
def detect_intent (text : String) : String :=
  let t := strLower text
  if ["where should i travel", "go where", "destination"].any (fun k => strContains t k) then
    "where_travel"
  else if ["budget", "low money", "cheap"].any (fun k => strContains t k) then
    "budget_low"
  else if ["eat", "food", "restaurant", "safe to eat"].any (fun k => strContains t k) then
    "eat_safe"
  else if ["transport", "bus", "train", "cab"].any (fun k => strContains t k) then
    "transport_best"
  else if strContains t "safe" && ["girl", "women", "female"].any (fun k => strContains t k) then
    "girls_safety"
  else if ["pack", "packing", "luggage"].any (fun k => strContains t k) then
    "packing"
  else if ["reduce cost", "save money", "cost down"].any (fun k => strContains t k) then
    "cost_reduce"
  else if ["confusing", "fix plan", "improve itinerary"].any (fun k => strContains t k) then
    "confusing_plan"
  else if ["hidden", "offbeat", "secret"].any (fun k => strContains t k) then
    "hidden_places"
  else if ["lost", "missing", "misplaced"].any (fun k => strContains t k) then
    "lost_item"
  else if ["scared", "unsafe", "help me"].any (fun k => strContains t k) then
    "scared"
  else if ["adventure", "activities"].any (fun k => strContains t k) then
    "adventures"
  else "general"

/-- The apostrophe character, kept out of string literals. -/
def apos : Char := Char.ofNat 39

/-- The concrete chat input of the first classification property:
"What's a cheap budget destination". -/
def inputBudgetDestination : String :=
  "What" ++ String.singleton apos ++ "s a cheap budget destination"

/-- The concrete chat input of the second classification property:
"I'm scared, help me, is it safe for girls here". -/
def inputScaredGirls : String :=
  "I" ++ String.singleton apos ++ "m scared, help me, is it safe for girls here"

/-! ## Budget estimator (`budget_calc`, `src/main.py` lines 242-279) -/

/-- Python's `round` ties-to-even on an exact rational: the nearest integer,
with half rounded to the even one. -/
def roundHalfEven (x : ℚ) : ℤ :=
  let f := ⌊x⌋
  let r := x - f
  if r < 1 / 2 then f
  else if 1 / 2 < r then f + 1
  else if f % 2 = 0 then f else f + 1

/-- Python `round(x, 2)`, modelled exactly over `ℚ`. -/
def round2 (x : ℚ) : ℚ := (roundHalfEven (100 * x) : ℚ) / 100

/-- The `base` lookup `{"thrifty": 18, "standard": 35, "comfort": 60}[daily_style]`:
a plain subscript, so an unknown style is a `KeyError` (`none`). -/
def base_rate : String → Option ℚ
  | "thrifty" => some 18
  | "standard" => some 35
  | "comfort" => some 60
  | _ => none

/-- `dest_adj.get(destination_type, 1.0)`:
`{"city": 1.0, "beach": 1.1, "mountains": 0.9, "rural": 0.8}` with default 1.0. -/
def dest_adj : String → ℚ
  | "city" => 1
  | "beach" => 11 / 10
  | "mountains" => 9 / 10
  | "rural" => 8 / 10
  | _ => 1

/-- `accom_map.get(accommodation, 15)`:
`{"budget": 15, "mid": 35, "premium": 80}` with default 15. -/
def accom_map : String → ℚ
  | "budget" => 15
  | "mid" => 35
  | "premium" => 80
  | _ => 15

/-- `BudgetInput` from `src/main.py` lines 65-71. -/
structure BudgetInput where
  user_id : String
  days : Int
  travelers : Int
  destination_type : String
  accommodation : String
  daily_style : String
  deriving DecidableEq, Repr

/-- `BudgetOutput` from `src/main.py` lines 74-78; the `breakdown` dict is
flattened into its four keys. -/
structure BudgetOutput where
  total_estimate : ℚ
  per_day : ℚ
  food : ℚ
  transport : ℚ
  misc : ℚ
  stay : ℚ
  suggestions : List String
  deriving DecidableEq, Repr

/-- `budget_calc` from `src/main.py` lines 242-279.  `none` corresponds to the
`KeyError` the Python raises on an unknown `daily_style`. -/
def budget_calc (inp : BudgetInput) : Option BudgetOutput :=
  match base_rate inp.daily_style with
  | none => none
  | some base =>
    let daily_food := base * dest_adj inp.destination_type
    let daily_transport := 8 * dest_adj inp.destination_type
    let daily_misc : ℚ := 5
    let per_person_daily := daily_food + daily_transport + daily_misc
    let accom_daily := accom_map inp.accommodation
    let total := (per_person_daily * (inp.travelers : ℚ) + accom_daily) * (inp.days : ℚ)
    some {
      total_estimate := round2 total
      per_day := round2 (total / ((max inp.days 1 : Int) : ℚ))
      food := round2 (daily_food * (inp.travelers : ℚ) * (inp.days : ℚ))
      transport := round2 (daily_transport * (inp.travelers : ℚ) * (inp.days : ℚ))
      misc := round2 (daily_misc * (inp.travelers : ℚ) * (inp.days : ℚ))
      stay := round2 (accom_daily * (inp.days : ℚ))
      suggestions := [
        "Book stays with kitchens to save on breakfasts.",
        "Use day passes for public transport.",
        "Travel mid-week to reduce fares."] }

/-! ## Coin economy (`ensure_user`, `reward`, `redeem`; `src/main.py` and
`src/schemas.py`).  The out-of-scope document store is modelled as in-memory
lists: create_document = append, find_one = first match, update_one = update
the first match.  Timestamps are seconds (`Int`); `timedelta(days=n)` is
`n * 86400`. -/

/-- UserProfile from `src/schemas.py` lines 13-20. -/
structure UserProfile where
  user_id : String
  name : Option String
  email : Option String
  language : String
  coins : Int
  created_at : Option Int
  updated_at : Option Int
  deriving DecidableEq, Repr

/-- RewardLedger from `src/schemas.py` lines 31-36. -/
structure RewardLedger where
  user_id : String
  action : String
  coins : Int
  notes : Option String
  created_at : Option Int
  deriving DecidableEq, Repr

/-- PremiumPass from `src/schemas.py` lines 39-43. -/
structure PremiumPass where
  user_id : String
  feature : String
  expires_at : Int
  created_at : Option Int
  deriving DecidableEq, Repr

/-- The three collections the coin economy touches, as in-memory lists. -/
structure Store where
  users : List UserProfile
  rewards : List RewardLedger
  passes : List PremiumPass
  deriving DecidableEq, Repr

/-- The store with all three collections empty. -/
def emptyStore : Store := ⟨[], [], []⟩

/-- WELCOME_COINS from `src/main.py` line 30. -/
def WELCOME_COINS : Int := 10

/-- find_one on the user collection: the first profile with the given id. -/
def findUser (uid : String) : List UserProfile → Option UserProfile
  | [] => none
  | p :: ps => if p.user_id = uid then some p else findUser uid ps

/-- update_one with a set of coins and updated_at, applied to the first
profile matching the id (as in `src/main.py` lines 317 and 331). -/
def update_coins (uid : String) (c : Int) (t : Int) :
    List UserProfile → List UserProfile
  | [] => []
  | p :: ps =>
    if p.user_id = uid then { p with coins := c, updated_at := some t } :: ps
    else p :: update_coins uid c t ps

/-- ensure_user from `src/main.py` lines 37-43: return the existing profile,
or create one with the default coin balance. -/
def ensure_user (uid : String) (s : Store) : UserProfile × Store :=
  match findUser uid s.users with
  | some p => (p, s)
  | none =>
    let p : UserProfile :=
      { user_id := uid, name := none, email := none, language := "auto",
        coins := WELCOME_COINS, created_at := none, updated_at := none }
    (p, { s with users := s.users ++ [p] })

/-- RewardRequest from `src/main.py` lines 81-85. -/
structure RewardRequest where
  user_id : String
  action : String
  coins : Int
  notes : Option String
  deriving DecidableEq, Repr

/-- RedeemRequest from `src/main.py` lines 88-91. -/
structure RedeemRequest where
  user_id : String
  feature : String
  duration : String
  deriving DecidableEq, Repr

/-- The reward route from `src/main.py` lines 313-319: credits the balance
with the delta floored at zero, then appends the raw audit entry. -/
def reward (req : RewardRequest) (now : Int) (s : Store) : Int × Store :=
  let ps := ensure_user req.user_id s
  let new_balance := ps.1.coins + max 0 req.coins
  let s2 := { ps.2 with users := update_coins req.user_id new_balance now ps.2.users }
  (new_balance,
   { s2 with rewards := s2.rewards ++ [⟨req.user_id, req.action, req.coins, req.notes, none⟩] })

/-- The costs table `{"1d": 10, "7d": 50, "30d": 150}` of `src/main.py`
line 324; a plain subscript, so an unknown key is a KeyError (`none`). -/
def costs : String → Option Int
  | "1d" => some 10
  | "7d" => some 50
  | "30d" => some 150
  | _ => none

/-- The days table `{"1d": 1, "7d": 7, "30d": 30}` of `src/main.py`
line 325; a plain subscript, so an unknown key is a KeyError (`none`). -/
def duration_days : String → Option Int
  | "1d" => some 1
  | "7d" => some 7
  | "30d" => some 30
  | _ => none

/-- Outcome of the redeem route: a KeyError escaping as an exception on an
unknown duration, the structured failure body on an insufficient balance, or
the success body carrying the feature and expiry. -/
inductive RedeemResult where
  | durationError
  | insufficientFunds
  | ok (feature : String) (expires_at : Int)
  deriving DecidableEq, Repr

/-- The redeem route from `src/main.py` lines 322-334.  The days lookup
happens first (line 325, before ensure_user on line 326), so an unknown
duration fails with the store untouched. -/
def redeem (req : RedeemRequest) (now : Int) (s : Store) : RedeemResult × Store :=
  match duration_days req.duration with
  | none => (.durationError, s)
  | some days =>
    let ps := ensure_user req.user_id s
    let bal := ps.1.coins
    match costs req.duration with
    | none => (.durationError, ps.2)
    | some price =>
      if bal < price then (.insufficientFunds, ps.2)
      else
        let s2 := { ps.2 with users := update_coins req.user_id (bal - price) now ps.2.users }
        (.ok req.feature (now + days * 86400),
         { s2 with passes := s2.passes ++ [⟨req.user_id, req.feature, now + days * 86400, none⟩] })

/-- An operation of the coin economy, with its wall-clock time where the code
reads the clock. -/
inductive Op where
  | ensure (uid : String)
  | grant (req : RewardRequest) (now : Int)
  | exchange (req : RedeemRequest) (now : Int)

/-- State change of one operation (the route result is dropped). -/
def applyOp (s : Store) : Op → Store
  | .ensure uid => (ensure_user uid s).2
  | .grant req now => (reward req now s).2
  | .exchange req now => (redeem req now s).2

/-- Every stored coin balance is non-negative. -/
def NonNegStore (s : Store) : Prop := ∀ p ∈ s.users, 0 ≤ p.coins

/-! ## Shared lemmas -/

/-- Rounding an integer-valued rational is the identity. -/
theorem roundHalfEven_intCast (n : ℤ) : roundHalfEven (n : ℚ) = n := by
  unfold roundHalfEven
  rw [Int.floor_intCast]
  norm_num

/-- Rounding to two decimals fixes every multiple of one tenth. -/
theorem round2_eq_self (x : ℚ) (n : ℤ) (h : 10 * x = (n : ℚ)) : round2 x = x := by
  have h100 : (100 : ℚ) * x = ((10 * n : ℤ) : ℚ) := by push_cast; linarith
  unfold round2
  rw [h100, roundHalfEven_intCast]
  push_cast
  linarith

/-- Every value of base_rate is an integer. -/
theorem base_rate_int (s : String) (b : ℚ) (h : base_rate s = some b) :
    ∃ n : ℤ, b = (n : ℚ) := by
  unfold base_rate at h
  split at h <;> simp_all
  exacts [⟨18, by push_cast; linarith⟩, ⟨35, by push_cast; linarith⟩,
    ⟨60, by push_cast; linarith⟩]

/-- Every value of dest_adj is a multiple of one tenth. -/
theorem dest_adj_tenth (d : String) : ∃ k : ℤ, dest_adj d = (k : ℚ) / 10 := by
  unfold dest_adj
  split
  exacts [⟨10, by norm_num⟩, ⟨11, by norm_num⟩, ⟨9, by norm_num⟩,
    ⟨8, by norm_num⟩, ⟨10, by norm_num⟩]

/-- Every value of accom_map is an integer. -/
theorem accom_map_int (a : String) : ∃ n : ℤ, accom_map a = (n : ℚ) := by
  unfold accom_map
  split
  exacts [⟨15, by norm_num⟩, ⟨35, by norm_num⟩, ⟨80, by norm_num⟩, ⟨15, by norm_num⟩]

/-- find_one only returns stored profiles. -/
theorem findUser_mem (uid : String) (us : List UserProfile) (p : UserProfile)
    (h : findUser uid us = some p) : p ∈ us := by
  induction us with
  | nil => simp [findUser] at h
  | cons q qs ih =>
    simp only [findUser] at h
    split at h
    · injection h with h
      exact h ▸ List.mem_cons_self _ _
    · exact List.mem_cons_of_mem _ (ih h)

/-- A profile in the updated list was stored before or carries the new
balance. -/
theorem mem_update_coins (uid : String) (c t : Int) (us : List UserProfile)
    (q : UserProfile) (h : q ∈ update_coins uid c t us) : q ∈ us ∨ q.coins = c := by
  induction us with
  | nil => simp [update_coins] at h
  | cons p ps ih =>
    simp only [update_coins] at h
    split at h
    · rcases List.mem_cons.mp h with h1 | h1
      · right
        rw [h1]
      · left
        exact List.mem_cons_of_mem _ h1
    · rcases List.mem_cons.mp h with h1 | h1
      · left
        exact h1 ▸ List.mem_cons_self _ _
      · rcases ih h1 with h2 | h2
        · left
          exact List.mem_cons_of_mem _ h2
        · right
          exact h2

/-- ensure_user on an id that already has a profile changes nothing. -/
theorem ensure_user_of_found (uid : String) (s : Store) (p : UserProfile)
    (h : findUser uid s.users = some p) : ensure_user uid s = (p, s) := by
  unfold ensure_user
  rw [h]

/-- The profile ensure_user hands back has a non-negative balance whenever the
store is well-formed. -/
theorem ensure_user_coins_nonneg (uid : String) (s : Store) (hs : NonNegStore s) :
    0 ≤ (ensure_user uid s).1.coins := by
  unfold ensure_user
  cases hf : findUser uid s.users with
  | some p => exact hs p (findUser_mem _ _ _ hf)
  | none =>
    show (0 : Int) ≤ WELCOME_COINS
    decide

/-- ensure_user preserves non-negativity of all balances. -/
theorem ensure_user_nonneg (uid : String) (s : Store) (hs : NonNegStore s) :
    NonNegStore (ensure_user uid s).2 := by
  unfold ensure_user
  cases hf : findUser uid s.users with
  | some p => exact hs
  | none =>
    intro q hq
    simp only [List.mem_append, List.mem_singleton] at hq
    rcases hq with h1 | rfl
    · exact hs q h1
    · show (0 : Int) ≤ WELCOME_COINS
      decide

/-- reward preserves non-negativity of all balances. -/
theorem reward_nonneg (req : RewardRequest) (now : Int) (s : Store)
    (hs : NonNegStore s) : NonNegStore (reward req now s).2 := by
  have h1 : NonNegStore (ensure_user req.user_id s).2 := ensure_user_nonneg _ _ hs
  have h2 : 0 ≤ (ensure_user req.user_id s).1.coins := ensure_user_coins_nonneg _ _ hs
  intro q hq
  have hq' : q ∈ update_coins req.user_id
      ((ensure_user req.user_id s).1.coins + max 0 req.coins) now
      (ensure_user req.user_id s).2.users := hq
  rcases mem_update_coins _ _ _ _ _ hq' with h | h
  · exact h1 q h
  · rw [h]
    have h3 : (0 : Int) ≤ max 0 req.coins := le_max_left 0 _
    linarith

/-- redeem preserves non-negativity of all balances. -/
theorem redeem_nonneg (req : RedeemRequest) (now : Int) (s : Store)
    (hs : NonNegStore s) : NonNegStore (redeem req now s).2 := by
  unfold redeem
  cases duration_days req.duration with
  | none => exact hs
  | some days =>
    cases costs req.duration with
    | none => exact ensure_user_nonneg _ _ hs
    | some price =>
      dsimp only
      split
      · exact ensure_user_nonneg _ _ hs
      · rename_i hnot
        intro q hq
        have hq' : q ∈ update_coins req.user_id
            ((ensure_user req.user_id s).1.coins - price) now
            (ensure_user req.user_id s).2.users := hq
        rcases mem_update_coins _ _ _ _ _ hq' with h | h
        · exact ensure_user_nonneg _ _ hs q h
        · rw [h]
          omega

/-- Every operation preserves non-negativity of all balances. -/
theorem applyOp_nonneg (s : Store) (o : Op) (hs : NonNegStore s) :
    NonNegStore (applyOp s o) := by
  cases o with
  | ensure uid => exact ensure_user_nonneg _ _ hs
  | grant req now => exact reward_nonneg _ _ _ hs
  | exchange req now => exact redeem_nonneg _ _ _ hs

/-! ## Claim theorems -/

/-- C1, counterexample: on the input "What's a cheap budget destination" the
intent classifier does NOT return budget_low, because the destination-keyword
rule fires first. -/
theorem detect_intent_cheap_budget_destination_ne :
    detect_intent inputBudgetDestination ≠ "budget_low" := by decide

/-- C1, amended: on the input "What's a cheap budget destination" the intent
classifier returns where_travel — the destination-keyword rule precedes the
budget-keyword rule in the fixed rule order, and the input contains the
keyword "destination". -/
theorem detect_intent_cheap_budget_destination :
    detect_intent inputBudgetDestination = "where_travel" := by decide

/-- C9: on the input "I'm scared, help me, is it safe for girls here" the
intent classifier returns girls_safety, since the girls_safety rule precedes
the scared rule in the fixed rule order. -/
theorem detect_intent_scared_girls :
    detect_intent inputScaredGirls = "girls_safety" := by decide

/-- C2: whenever the stored balance of the requesting user is strictly below
the price of the requested duration, redeem returns the structured
insufficient-funds failure and leaves the whole store unchanged: the balance
stays as it was and no pass is created. -/
theorem redeem_insufficient_funds (s : Store) (req : RedeemRequest) (now : Int)
    (p : UserProfile) (days price : Int)
    (hfind : findUser req.user_id s.users = some p)
    (hdays : duration_days req.duration = some days)
    (hcost : costs req.duration = some price)
    (hlt : p.coins < price) :
    redeem req now s = (.insufficientFunds, s) := by
  unfold redeem
  rw [hdays, ensure_user_of_found _ _ _ hfind, hcost]
  dsimp only
  rw [if_pos hlt]

/-- C2 witness: with a stored balance of 5 and the short (1d) price of 10,
redeem fails with insufficient funds and the balance stays 5. -/
theorem redeem_insufficient_funds_witness :
    redeem ⟨"u", "pro", "1d"⟩ 0 ⟨[⟨"u", none, none, "auto", 5, none, none⟩], [], []⟩ =
      (.insufficientFunds, ⟨[⟨"u", none, none, "auto", 5, none, none⟩], [], []⟩) :=
  redeem_insufficient_funds _ _ _ ⟨"u", none, none, "auto", 5, none, none⟩ 1 10
    rfl rfl rfl (by decide)

/-- C5: whenever the stored balance is at least the price of the requested
duration, redeem debits exactly that price from the user's balance and
appends one pass whose expiry is the creation time plus the mapped number of
days; rewards are untouched. -/
theorem redeem_success (s : Store) (req : RedeemRequest) (now : Int)
    (p : UserProfile) (days price : Int)
    (hfind : findUser req.user_id s.users = some p)
    (hdays : duration_days req.duration = some days)
    (hcost : costs req.duration = some price)
    (hge : price ≤ p.coins) :
    redeem req now s =
      (.ok req.feature (now + days * 86400),
       { users := update_coins req.user_id (p.coins - price) now s.users,
         rewards := s.rewards,
         passes := s.passes ++ [⟨req.user_id, req.feature, now + days * 86400, none⟩] }) := by
  unfold redeem
  rw [hdays, ensure_user_of_found _ _ _ hfind, hcost]
  dsimp only
  rw [if_neg (not_lt.mpr hge)]

/-- C5 witness: with balance 20 and duration "1d" (price 10, one day), the
balance becomes 10 and the created pass expires 86400 seconds after the
creation time 0. -/
theorem redeem_success_witness :
    redeem ⟨"u", "pro", "1d"⟩ 0 ⟨[⟨"u", none, none, "auto", 20, none, none⟩], [], []⟩ =
      (.ok "pro" 86400,
       ⟨[⟨"u", none, none, "auto", 10, none, some 0⟩], [],
        [⟨"u", "pro", 86400, none⟩]⟩) := by
  rw [redeem_success ⟨[⟨"u", none, none, "auto", 20, none, none⟩], [], []⟩
    ⟨"u", "pro", "1d"⟩ 0 ⟨"u", none, none, "auto", 20, none, none⟩ 1 10
    rfl rfl rfl (by decide)]
  decide

/-- C10: a redeem call with a duration outside {1d, 7d, 30d} fails on the
days-table lookup before ensure_user runs, so the store is returned
completely untouched: no profile is created, no balance changes, no pass is
written. -/
theorem redeem_unknown_duration (s : Store) (req : RedeemRequest) (now : Int)
    (h : req.duration ∉ ["1d", "7d", "30d"]) :
    redeem req now s = (.durationError, s) := by
  have hd : duration_days req.duration = none := by
    unfold duration_days
    split <;> simp_all
  unfold redeem
  rw [hd]

/-- C10 witness: redeeming with the unknown duration "2d" against the empty
store fails and leaves the store empty. -/
theorem redeem_unknown_duration_witness :
    redeem ⟨"u", "pro", "2d"⟩ 0 emptyStore = (.durationError, emptyStore) :=
  redeem_unknown_duration emptyStore ⟨"u", "pro", "2d"⟩ 0 (by decide)

/-- C4: after any sequence of ensure_user, reward and redeem operations
starting from the empty store, every stored coin balance is non-negative:
creation starts at 10, reward only adds a delta floored at zero, and redeem
only debits when the balance covers the price. -/
theorem coins_never_negative (ops : List Op) (p : UserProfile)
    (hp : p ∈ (ops.foldl applyOp emptyStore).users) : 0 ≤ p.coins := by
  have key : ∀ (l : List Op) (s : Store), NonNegStore s → NonNegStore (l.foldl applyOp s) := by
    intro l
    induction l with
    | nil => intro s h; exact h
    | cons o os ih =>
      intro s h
      exact ih _ (applyOp_nonneg _ _ h)
  refine key ops emptyStore ?_ p hp
  intro q hq
  simp [emptyStore] at hq

/-- C4 witness: the profile created by ensure_user on the empty store holds
the default 10 coins, a non-negative balance. -/
theorem coins_never_negative_witness :
    0 ≤ (UserProfile.mk "u" none none "auto" 10 none none).coins :=
  coins_never_negative [Op.ensure "u"]
    (UserProfile.mk "u" none none "auto" 10 none none) (by decide)

/-- C3: for a valid budget request the returned total estimate is exactly
((dailyFood + dailyTransport + dailyMisc) * travelers + accomDaily) * days,
with dailyFood the style rate times the destination multiplier,
dailyTransport 8 times the multiplier and dailyMisc the flat 5; the
accommodation rate is multiplied by days but not by travelers, and rounding
changes nothing because every value is a multiple of one tenth. -/
theorem budget_total_formula (inp : BudgetInput) (b : ℚ)
    (hstyle : base_rate inp.daily_style = some b)
    (hdays : 1 ≤ inp.days) (htrav : 1 ≤ inp.travelers)
    (hdest : inp.destination_type ∈ ["city", "beach", "mountains", "rural"])
    (hacc : inp.accommodation ∈ ["budget", "mid", "premium"]) :
    ∃ out, budget_calc inp = some out ∧
      out.total_estimate =
        ((b * dest_adj inp.destination_type + 8 * dest_adj inp.destination_type + 5)
            * (inp.travelers : ℚ) + accom_map inp.accommodation) * (inp.days : ℚ) := by
  obtain ⟨bi, hbi⟩ := base_rate_int _ _ hstyle
  obtain ⟨k, hk⟩ := dest_adj_tenth inp.destination_type
  obtain ⟨a, ha⟩ := accom_map_int inp.accommodation
  unfold budget_calc
  rw [hstyle]
  refine ⟨_, rfl, round2_eq_self _ (((bi * k + 8 * k + 50) * inp.travelers + 10 * a) * inp.days) ?_⟩
  rw [hbi, hk, ha]
  push_cast
  ring

/-- C3 witness: 2 days, 3 travelers, beach, mid tier, standard style. -/
theorem budget_total_formula_witness :
    ∃ out, budget_calc ⟨"u", 2, 3, "beach", "mid", "standard"⟩ = some out ∧
      out.total_estimate =
        ((35 * dest_adj "beach" + 8 * dest_adj "beach" + 5) * ((3 : Int) : ℚ)
            + accom_map "mid") * ((2 : Int) : ℚ) :=
  budget_total_formula ⟨"u", 2, 3, "beach", "mid", "standard"⟩ 35 rfl (by decide)
    (by decide) (by decide) (by decide)

/-- C7: with travelers, destination, tier and style fixed (the style being
one the rate table knows), doubling the days input exactly doubles the
returned (rounded) total estimate. -/
theorem budget_doubling (inp : BudgetInput) (b : ℚ)
    (hstyle : base_rate inp.daily_style = some b) :
    ∃ o1 o2, budget_calc inp = some o1 ∧
      budget_calc { inp with days := 2 * inp.days } = some o2 ∧
      o2.total_estimate = 2 * o1.total_estimate := by
  obtain ⟨bi, hbi⟩ := base_rate_int _ _ hstyle
  obtain ⟨k, hk⟩ := dest_adj_tenth inp.destination_type
  obtain ⟨a, ha⟩ := accom_map_int inp.accommodation
  unfold budget_calc
  dsimp only
  rw [hstyle]
  refine ⟨_, _, rfl, rfl, ?_⟩
  dsimp only
  rw [round2_eq_self _ (((bi * k + 8 * k + 50) * inp.travelers + 10 * a) * (2 * inp.days))
        (by rw [hbi, hk, ha]; push_cast; ring),
      round2_eq_self _ (((bi * k + 8 * k + 50) * inp.travelers + 10 * a) * inp.days)
        (by rw [hbi, hk, ha]; push_cast; ring)]
  push_cast
  ring

/-- C7 witness: 3 days versus 6 days, 2 travelers, rural, premium, comfort. -/
theorem budget_doubling_witness :
    ∃ o1 o2, budget_calc ⟨"u", 3, 2, "rural", "premium", "comfort"⟩ = some o1 ∧
      budget_calc ⟨"u", 2 * 3, 2, "rural", "premium", "comfort"⟩ = some o2 ∧
      o2.total_estimate = 2 * o1.total_estimate :=
  budget_doubling ⟨"u", 3, 2, "rural", "premium", "comfort"⟩ 60 rfl

/-- C8: with one day and one traveler, for every valid combination of style,
tier and destination, the four rounded breakdown fields sum exactly to the
rounded total estimate. -/
theorem budget_breakdown_sum (d a s : String)
    (hdest : d ∈ ["city", "beach", "mountains", "rural"])
    (hacc : a ∈ ["budget", "mid", "premium"])
    (hstyle : s ∈ ["thrifty", "standard", "comfort"]) :
    ∃ out, budget_calc ⟨"u", 1, 1, d, a, s⟩ = some out ∧
      out.food + out.transport + out.misc + out.stay = out.total_estimate := by
  have hb : ∃ b : ℚ, base_rate s = some b ∧ ∃ bi : ℤ, b = (bi : ℚ) := by
    simp only [List.mem_cons, List.not_mem_nil, or_false] at hstyle
    rcases hstyle with rfl | rfl | rfl
    · exact ⟨18, rfl, 18, by norm_num⟩
    · exact ⟨35, rfl, 35, by norm_num⟩
    · exact ⟨60, rfl, 60, by norm_num⟩
  obtain ⟨b, hb, bi, hbi⟩ := hb
  obtain ⟨k, hk⟩ := dest_adj_tenth d
  obtain ⟨ai, ha⟩ := accom_map_int a
  unfold budget_calc
  dsimp only
  rw [hb]
  refine ⟨_, rfl, ?_⟩
  dsimp only
  rw [round2_eq_self (b * dest_adj d * (((1 : Int)) : ℚ) * (((1 : Int)) : ℚ)) (bi * k)
        (by rw [hbi, hk]; push_cast; ring),
      round2_eq_self (8 * dest_adj d * (((1 : Int)) : ℚ) * (((1 : Int)) : ℚ)) (8 * k)
        (by rw [hk]; push_cast; ring),
      round2_eq_self (5 * (((1 : Int)) : ℚ) * (((1 : Int)) : ℚ)) 50
        (by push_cast; ring),
      round2_eq_self (accom_map a * (((1 : Int)) : ℚ)) (10 * ai)
        (by rw [ha]; push_cast; ring),
      round2_eq_self (((b * dest_adj d + 8 * dest_adj d + 5) * (((1 : Int)) : ℚ)
            + accom_map a) * (((1 : Int)) : ℚ)) (bi * k + 8 * k + 50 + 10 * ai)
        (by rw [hbi, hk, ha]; push_cast; ring)]
  push_cast
  ring

/-- C8 witness: mountains, premium tier, comfort style, one day, one
traveler. -/
theorem budget_breakdown_sum_witness :
    ∃ out, budget_calc ⟨"u", 1, 1, "mountains", "premium", "comfort"⟩ = some out ∧
      out.food + out.transport + out.misc + out.stay = out.total_estimate :=
  budget_breakdown_sum "mountains" "premium" "comfort" (by decide) (by decide) (by decide)

/-- C6: the estimator is strict about the daily style and lenient about the
other two enums, exactly this way around: an unknown style makes budget_calc
fail with no result at all, while an unknown destination silently uses the
multiplier 1.0 (the city value, so the result is the same as for "city") and
an unknown tier silently uses the rate 15 (the budget value, so the result is
the same as for "budget"). -/
theorem budget_style_strict_others_lenient (inp : BudgetInput) :
    (inp.daily_style ∉ ["thrifty", "standard", "comfort"] → budget_calc inp = none) ∧
    (inp.destination_type ∉ ["city", "beach", "mountains", "rural"] →
      dest_adj inp.destination_type = 1 ∧
      budget_calc inp = budget_calc { inp with destination_type := "city" }) ∧
    (inp.accommodation ∉ ["budget", "mid", "premium"] →
      accom_map inp.accommodation = 15 ∧
      budget_calc inp = budget_calc { inp with accommodation := "budget" }) := by
  refine ⟨fun hs => ?_, fun hd => ⟨?_, ?_⟩, fun ha => ⟨?_, ?_⟩⟩
  · have hb : base_rate inp.daily_style = none := by
      unfold base_rate
      split <;> simp_all
    unfold budget_calc
    rw [hb]
  · unfold dest_adj
    split <;> simp_all
  · have h1 : dest_adj inp.destination_type = 1 := by
      unfold dest_adj
      split <;> simp_all
    unfold budget_calc
    dsimp only
    cases base_rate inp.daily_style with
    | none => rfl
    | some b =>
      rw [h1, show dest_adj "city" = 1 from rfl]
  · unfold accom_map
    split <;> simp_all
  · have h1 : accom_map inp.accommodation = 15 := by
      unfold accom_map
      split <;> simp_all
    unfold budget_calc
    dsimp only
    cases base_rate inp.daily_style with
    | none => rfl
    | some b =>
      rw [h1, show accom_map "budget" = 15 from rfl]

/-- C6 witness: the unknown style "luxury" fails; the unknown destination
"desert" behaves like "city" (multiplier 1.0); the unknown tier "hostel"
behaves like "budget" (rate 15). -/
theorem budget_style_strict_others_lenient_witness :
    budget_calc ⟨"u", 1, 1, "city", "budget", "luxury"⟩ = none ∧
    (dest_adj "desert" = 1 ∧
      budget_calc ⟨"u", 1, 1, "desert", "budget", "thrifty"⟩ =
        budget_calc ⟨"u", 1, 1, "city", "budget", "thrifty"⟩) ∧
    (accom_map "hostel" = 15 ∧
      budget_calc ⟨"u", 1, 1, "city", "hostel", "thrifty"⟩ =
        budget_calc ⟨"u", 1, 1, "city", "budget", "thrifty"⟩) :=
  ⟨(budget_style_strict_others_lenient ⟨"u", 1, 1, "city", "budget", "luxury"⟩).1 (by decide),
   (budget_style_strict_others_lenient ⟨"u", 1, 1, "desert", "budget", "thrifty"⟩).2.1 (by decide),
   (budget_style_strict_others_lenient ⟨"u", 1, 1, "city", "hostel", "thrifty"⟩).2.2 (by decide)⟩
